import Mathlib

/-!
Verification of the configuration-split resolution and binary-manifest
extraction engine of aapt2 (frameworks/base/tools/aapt2/cmd/Util.cpp).

The functions of cmd/Util.cpp are embedded shallowly.  External
collaborators that the spec declares out of scope (the configuration
descriptor parser/serializer `ConfigDescription::Parse` / `ToString`,
`ResourceUtils::ParseInt`, `ResourceUtils::ParseSdkVersion`) are taken as
parameters of the embedded functions, and small concrete instances are
supplied where a theorem is evaluated on a concrete input.
-/

namespace Aapt

/-- Axis bitmask constants of the configuration model.  Modelled from the
spec: `ConfigDescriptor` is an "opaque, totally-ordered, diffable
multi-axis value" whose `diff` yields "a bitmask of differing axes"; the
concrete mask values mirror the platform constants. -/
def CONFIG_LOCALE : Nat := 0x0004

/-- Density axis mask (see `CONFIG_LOCALE`). -/
def CONFIG_DENSITY : Nat := 0x0100

/-- Screen-size axis mask (stands for the remaining non-density,
non-locale, non-version axes of the descriptor). -/
def CONFIG_SCREEN_SIZE : Nat := 0x0200

/-- SDK-version axis mask. -/
def CONFIG_VERSION : Nat := 0x0400

/-- Modelled from the spec: a configuration descriptor is a multi-axis
value (density, locale, SDK version, screen, etc.).  The axes the core
logic reads directly (`density`, `sdkVersion`) are explicit; `locale` and
`screenSize` stand for the remaining axes.  `sdkVersion` is a `uint16_t`
in the platform struct, hence a `Nat` here. -/
structure ConfigDescription where
  locale : String := ""
  density : Nat := 0
  sdkVersion : Nat := 0
  screenSize : Nat := 0
deriving DecidableEq, Repr

/-- The fully-default descriptor, `ConfigDescription::DefaultConfig()`. -/
def ConfigDescription.DefaultConfig : ConfigDescription := {}

/-- `ConfigDescription::CopyWithoutSdkVersion`: a copy with the
SDK-version axis cleared; the original is not touched (value semantics). -/
def ConfigDescription.CopyWithoutSdkVersion (c : ConfigDescription) : ConfigDescription :=
  { c with sdkVersion := 0 }

/-- `ConfigDescription::diff`: bitmask of the axes on which the two
descriptors differ.  The masks are distinct powers of two, so the sum is
the bitwise or. -/
def ConfigDescription.diff (a b : ConfigDescription) : Nat :=
  (if a.locale ≠ b.locale then CONFIG_LOCALE else 0) +
  (if a.density ≠ b.density then CONFIG_DENSITY else 0) +
  (if a.screenSize ≠ b.screenSize then CONFIG_SCREEN_SIZE else 0) +
  (if a.sdkVersion ≠ b.sdkVersion then CONFIG_VERSION else 0)

/-- Sort key of a descriptor: the platform defines a total order on
configurations (used by `std::set<ConfigDescription>`); the model orders
lexicographically on the axes. -/
def ConfigDescription.key (c : ConfigDescription) :
    String ×ₗ (Nat ×ₗ (Nat ×ₗ Nat)) :=
  toLex (c.locale, toLex (c.density, toLex (c.sdkVersion, c.screenSize)))

theorem ConfigDescription.key_injective :
    Function.Injective ConfigDescription.key := by
  rintro ⟨l₁, d₁, s₁, c₁⟩ ⟨l₂, d₂, s₂, c₂⟩ h
  simpa [ConfigDescription.key, Prod.ext_iff, toLex] using h

instance : LinearOrder ConfigDescription :=
  LinearOrder.lift' ConfigDescription.key ConfigDescription.key_injective

/-- `SplitConstraints` (split/TableSplitter.h): a set of configuration
descriptors describing one split artifact.  The `std::set` is modelled as
a `Finset`. -/
structure SplitConstraints where
  configs : Finset ConfigDescription := ∅
deriving DecidableEq

/-- The per-descriptor rewrite performed inside
`AdjustSplitConstraintsForMinSdk`: strip the SDK version if it is ≤ the
minimum (the `uint16_t` field is promoted to `int` for the comparison). -/
def adjustConfig (min_sdk : Int) (config : ConfigDescription) : ConfigDescription :=
  if (config.sdkVersion : Int) ≤ min_sdk then config.CopyWithoutSdkVersion else config

/-- `AdjustSplitConstraintsForMinSdk` (cmd/Util.cpp): rebuild each
constraint set, inserting, for every descriptor, either its
SDK-stripped copy (when its SDK version is ≤ `min_sdk`) or the descriptor
itself, into a fresh set. -/
def AdjustSplitConstraintsForMinSdk (min_sdk : Int)
    (split_constraints : List SplitConstraints) : List SplitConstraints :=
  split_constraints.map fun constraints =>
    ⟨constraints.configs.image (adjustConfig min_sdk)⟩

/-! ## Resource values and attributes -/

/-- `android::Res_value::TYPE_FIRST_INT`. -/
def TYPE_FIRST_INT : Nat := 0x10

/-- `android::Res_value::TYPE_INT_DEC`. -/
def TYPE_INT_DEC : Nat := 0x10

/-- `android::Res_value::TYPE_INT_BOOLEAN`. -/
def TYPE_INT_BOOLEAN : Nat := 0x12

/-- `android::Res_value::TYPE_LAST_INT`. -/
def TYPE_LAST_INT : Nat := 0x1f

/-- The compiled (typed) value attached to an XML attribute.  `ValueCast`
in the code distinguishes `String` values, `BinaryPrimitive` values
(a data type tag plus a `uint32_t` payload) and everything else
(references, styled strings, ...), collapsed here into `other`. -/
inductive CompiledValue where
  | str (s : String)
  | prim (dataType : Nat) (data : Nat)
  | other
deriving DecidableEq, Repr

/-- `xml::Attribute`: namespace-qualified name, raw textual value, and an
optional compiled value (`compiled_value`); `resource_id` stands for the
optional `compiled_attribute` resource identifier. -/
structure XmlAttribute where
  namespace_uri : String := ""
  name : String := ""
  value : String := ""
  resource_id : Option Nat := none
  compiled_value : Option CompiledValue := none
deriving DecidableEq, Repr

/-- Two's-complement reinterpretation of a `uint32_t` payload as the C++
`int` the extractors return. -/
def intOfUint32 (n : Nat) : Int :=
  if n < 2 ^ 31 then (n : Int) else (n : Int) - 2 ^ 32

/-! ## Binary attribute value extractors (cmd/Util.cpp, static helpers)

Each C++ extractor returns `Maybe<T>` and fills a `std::string`
out-parameter with the failure reason; the model returns
`Except String T` carrying the same reason strings. -/

/-- `ExtractCompiledString`: compiled value first (must be a non-empty
compiled string), otherwise fall back to non-empty raw text. -/
def ExtractCompiledString (attr : XmlAttribute) : Except String String :=
  match attr.compiled_value with
  | some cv =>
    match cv with
    | .str s =>
      if s ≠ "" then .ok s
      else .error "compiled value is an empty string"
    | _ => .error "compiled value is not a string"
  | none =>
    if attr.value ≠ "" then .ok attr.value
    else .error "value is an empty string"

/-- `ExtractCompiledInt`: compiled value first (must be a
`BinaryPrimitive` whose data type lies in the integer range), otherwise
the raw text must parse as an unsigned integer via the external
`ResourceUtils::ParseInt`, passed here as `parseIntF`. -/
def ExtractCompiledInt (parseIntF : String → Option Nat)
    (attr : XmlAttribute) : Except String Nat :=
  match attr.compiled_value with
  | some cv =>
    match cv with
    | .prim dataType data =>
      if TYPE_FIRST_INT ≤ dataType ∧ dataType ≤ TYPE_LAST_INT then .ok data
      else .error "compiled value is not an integer"
    | _ => .error "compiled value is not an integer"
  | none =>
    match parseIntF attr.value with
    | some n => .ok n
    | none => .error ("\x27" ++ attr.value ++ "\x27 is not a valid integer")

/-- `ExtractSdkVersion`: a compiled `BinaryPrimitive` in the integer
range yields its payload; a compiled string is parsed as an SDK version
(numeric or codename) by the external `ResourceUtils::ParseSdkVersion`,
passed here as `parseSdkF`; any other compiled value is a type mismatch;
without a compiled value the raw text must parse as an SDK version. -/
def ExtractSdkVersion (parseSdkF : String → Option Int)
    (attr : XmlAttribute) : Except String Int :=
  match attr.compiled_value with
  | some cv =>
    match cv with
    | .prim dataType data =>
      if TYPE_FIRST_INT ≤ dataType ∧ dataType ≤ TYPE_LAST_INT then
        .ok (intOfUint32 data)
      else .error "compiled value is not an integer or string"
    | .str s =>
      match parseSdkF s with
      | some v => .ok v
      | none => .error "compiled string value is not a valid SDK version"
    | .other => .error "compiled value is not an integer or string"
  | none =>
    match parseSdkF attr.value with
    | some v => .ok v
    | none => .error ("\x27" ++ attr.value ++ "\x27 is not a valid SDK version")

/-! ## Diagnostics and source locations -/

/-- A source location: file path plus optional line number
(`aapt::Source`). -/
structure Source where
  path : String := ""
  line : Option Nat := none
deriving DecidableEq, Repr

/-- `Source::WithLine`. -/
def Source.withLine (s : Source) (n : Nat) : Source :=
  { s with line := some n }

/-- Severity of an emitted diagnostic (`IDiagnostics`). -/
inductive DiagKind where
  | error
  | warn
  | note
deriving DecidableEq, Repr

/-- One appended diagnostic: severity, optional anchor, message text.
`DiagMessage()` with no source anchors nothing (`src = none`). -/
structure Diag where
  kind : DiagKind
  src : Option Source := none
  msg : String
deriving DecidableEq, Repr

/-! ## XML document model

Modelled from the spec: the generic XML document model is an external
collaborator — "element has name, namespace URI, line number, ordered
attribute list, child-lookup-by-(namespace,name),
attribute-lookup-by-(namespace,name)".  A node is either a namespace
declaration wrapper or an element. -/

inductive XmlNode where
  | nsNode (nsPfx nsUri : String) (children : List XmlNode)
  | el (namespace_uri : String) (name : String) (line_number : Nat)
      (attributes : List XmlAttribute) (children : List XmlNode)

/-- Element accessor: namespace URI (empty for a namespace wrapper, which
is never observed as an element). -/
def XmlNode.namespaceUri : XmlNode → String
  | .el ns _ _ _ _ => ns
  | .nsNode _ _ _ => ""

/-- Element accessor: tag name. -/
def XmlNode.elName : XmlNode → String
  | .el _ n _ _ _ => n
  | .nsNode _ _ _ => ""

/-- Element accessor: line number. -/
def XmlNode.lineNumber : XmlNode → Nat
  | .el _ _ ln _ _ => ln
  | .nsNode _ _ _ => 0

/-- Element accessor: ordered attribute list. -/
def XmlNode.attributes : XmlNode → List XmlAttribute
  | .el _ _ _ attrs _ => attrs
  | .nsNode _ _ _ => []

/-- Node accessor: children. -/
def XmlNode.childNodes : XmlNode → List XmlNode
  | .el _ _ _ _ cs => cs
  | .nsNode _ _ cs => cs

/-- Whether the node is an element (`NodeCast<Element>` succeeds). -/
def XmlNode.isElement : XmlNode → Bool
  | .el _ _ _ _ _ => true
  | .nsNode _ _ _ => false

/-- Modelled from the spec: `xml::FindRootElement` descends through
namespace wrapper nodes to the first element ("Locate the document's
root element"). -/
def findRootElement : XmlNode → Option XmlNode
  | .el ns n ln attrs cs => some (.el ns n ln attrs cs)
  | .nsNode _ _ [] => none
  | .nsNode _ _ (c :: _) => findRootElement c

/-- `Element::FindAttribute`: first attribute with the given namespace
URI and local name. -/
def XmlNode.findAttribute (node : XmlNode) (ns nm : String) : Option XmlAttribute :=
  node.attributes.find? fun a => a.namespace_uri == ns && a.name == nm

/-- `Element::FindChild`: first child element with the given namespace
URI and name. -/
def XmlNode.findChild (node : XmlNode) (ns nm : String) : Option XmlNode :=
  node.childNodes.find? fun c =>
    c.isElement && c.namespaceUri == ns && c.elName == nm

/-- `xml::XmlResource`: a document — its source (`file.source`) and the
root node (possibly absent). -/
structure XmlResource where
  source : Source := {}
  root : Option XmlNode := none

/-- The Android resource namespace URI, `xml::kSchemaAndroid`. -/
def kSchemaAndroid : String := "http://schemas.android.com/apk/res/android"

/-- `AppInfo` (cmd/Util.h is not part of the sources; modelled from the
spec: "package: string (required), version_code: optional uint32,
revision_code: optional uint32, split_name: optional string,
min_sdk_version: optional int (default 0 if absent)"). -/
structure AppInfo where
  package : String := ""
  version_code : Option Nat := none
  revision_code : Option Nat := none
  split_name : Option String := none
  min_sdk_version : Int := 0
deriving DecidableEq, Repr

/-! ## ParseTargetDensityParameter -/

/-- `ParseTargetDensityParameter` (cmd/Util.cpp): parse the argument as a
configuration (via the external `ConfigDescription::Parse`, passed as
`parse`), clear the SDK version that the parser can automatically add,
and require the result to differ from the default configuration in
exactly the density axis.  Returns the density plus emitted
diagnostics. -/
def ParseTargetDensityParameter (parse : String → Option ConfigDescription)
    (arg : String) : Option Nat × List Diag :=
  match parse arg with
  | none =>
    (none, [⟨.error, none,
      "invalid density \x27" ++ arg ++ "\x27 for --preferred-density option"⟩])
  | some cfg =>
    let preferred_density_config := { cfg with sdkVersion := 0 }
    if preferred_density_config.diff ConfigDescription.DefaultConfig ≠ CONFIG_DENSITY then
      (none, [⟨.error, none,
        "invalid preferred density \x27" ++ arg ++ "\x27. " ++
        "Preferred density must only be a density value"⟩])
    else
      (some preferred_density_config.density, [])

/-! ## ParseSplitParameter -/

/-- The split-parameter separator: `;` on Windows, `:` elsewhere; the
model fixes the non-Windows choice. -/
def sSeparator : Char := ':'

/-- Char-list core of `util::Split` / `util::Tokenize`: split on every
occurrence of the separator character; the empty input yields one empty
part. -/
def splitCharList (sep : Char) : List Char → List (List Char)
  | [] => [[]]
  | c :: cs =>
    if c = sep then [] :: splitCharList sep cs
    else
      match splitCharList sep cs with
      | [] => [[c]]
      | p :: ps => (c :: p) :: ps

/-- `util::Split(str, sep)` (and the tokenizer `util::Tokenize(str, sep)`,
which produces the same token sequence): split the string on every
occurrence of the separator character. -/
def splitChar (sep : Char) (s : String) : List String :=
  (splitCharList sep s.data).map List.asString

/-- The token loop of `ParseSplitParameter`: parse each comma-separated
token, inserting the parsed descriptor into the constraint set; on the
first token that does not parse, emit the error and stop, leaving the
set as already built. -/
def parseSplitLoop (parse : String → Option ConfigDescription) (arg : String)
    (tokens : List String) (configs : Finset ConfigDescription) :
    Bool × Finset ConfigDescription × List Diag :=
  match tokens with
  | [] => (true, configs, [])
  | t :: rest =>
    match parse t with
    | none =>
      (false, configs, [⟨.error, none,
        "invalid config \x27" ++ t ++ "\x27 in split parameter \x27" ++ arg ++ "\x27"⟩])
    | some config => parseSplitLoop parse arg rest (insert config configs)

/-- `ParseSplitParameter` (cmd/Util.cpp): split the argument on the
separator; with anything but exactly two parts, fail with an error and a
corrective note, leaving the out-parameters untouched.  Otherwise write
the path out-parameter, then run the token loop over the second part,
inserting into the constraint-set out-parameter.  The result carries the
C++ return value together with the final values of both
out-parameters (`out_path`, `out_split.configs`) and the diagnostics. -/
def ParseSplitParameter (parse : String → Option ConfigDescription)
    (arg : String) (out_path : String) (out_split : Finset ConfigDescription) :
    Bool × String × Finset ConfigDescription × List Diag :=
  let parts := splitChar sSeparator arg
  if parts.length ≠ 2 then
    (false, out_path, out_split,
      [⟨.error, none, "invalid split parameter \x27" ++ arg ++ "\x27"⟩,
       ⟨.note, none,
        "should be --split path/to/output.apk" ++ String.singleton sSeparator ++
        "<config>[,<config>...]."⟩])
  else
    let path := parts.getD 0 ""
    let tokens := splitChar ',' (parts.getD 1 "")
    let r := parseSplitLoop parse arg tokens out_split
    (r.1, path, r.2.1, r.2.2)

/-! ## GenerateSplitManifest -/

/-- Modelled from the spec: `ConfigDescriptor.ToString()` is the external
serializer of a descriptor; any injective rendering works for the
theorems, which only constrain the join of the rendered descriptors. -/
def ConfigDescription.serialize (c : ConfigDescription) : String :=
  c.locale ++ "-" ++ toString c.density ++ "-" ++ toString c.sdkVersion ++
  "-" ++ toString c.screenSize

/-- `util::Joiner` over the `std::set` of a constraint set: the set
iterates in sorted order, each element printed by the external
serializer, separated by the given string. -/
def joinedConfigs (configs : Finset ConfigDescription) (sep : String) : String :=
  String.intercalate sep ((configs.sort (· ≤ ·)).map ConfigDescription.serialize)

/-- `android:versionCode` attribute resource id, `kVersionCode`. -/
def kVersionCode : Nat := 0x0101021b

/-- `android:revisionCode` attribute resource id, `kRevisionCode`. -/
def kRevisionCode : Nat := 0x010104d5

/-- `android:hasCode` attribute resource id, `kHasCode`. -/
def kHasCode : Nat := 0x0101000c

/-- `GenerateSplitManifest` (cmd/Util.cpp): synthesize the split
manifest document — an `android` namespace wrapper around a `manifest`
element carrying `package`, optional typed `versionCode`/`revisionCode`,
the synthesized `split` attribute, an optional `configForSplit`, and one
`application` child with a typed boolean-false `hasCode`. -/
def GenerateSplitManifest (app_info : AppInfo) (constraints : SplitConstraints) :
    XmlResource :=
  let split_name :=
    (match app_info.split_name with
     | some n => n ++ "."
     | none => "") ++ "config." ++ joinedConfigs constraints.configs "_"
  let manifest_attrs : List XmlAttribute :=
    [{ namespace_uri := "", name := "package", value := app_info.package }] ++
    (match app_info.version_code with
     | some version_code =>
       [{ namespace_uri := kSchemaAndroid, name := "versionCode",
          value := toString version_code, resource_id := some kVersionCode,
          compiled_value := some (.prim TYPE_INT_DEC version_code) }]
     | none => []) ++
    (match app_info.revision_code with
     | some revision_code =>
       [{ namespace_uri := kSchemaAndroid, name := "revisionCode",
          value := toString revision_code, resource_id := some kRevisionCode,
          compiled_value := some (.prim TYPE_INT_DEC revision_code) }]
     | none => []) ++
    [{ namespace_uri := "", name := "split", value := split_name }] ++
    (match app_info.split_name with
     | some n => [{ namespace_uri := "", name := "configForSplit", value := n }]
     | none => [])
  let application_el : XmlNode :=
    .el "" "application" 0
      [{ namespace_uri := kSchemaAndroid, name := "hasCode", value := "false",
         resource_id := some kHasCode,
         compiled_value := some (.prim TYPE_INT_BOOLEAN 0) }]
      []
  let manifest_el : XmlNode := .el "" "manifest" 0 manifest_attrs [application_el]
  { source := {}, root := some (.nsNode "android" kSchemaAndroid [manifest_el]) }

/-! ## ExtractAppInfoFromBinaryManifest -/

/-- `ExtractAppInfoFromBinaryManifest` (cmd/Util.cpp): locate the root
element, require it to be `manifest` in the empty namespace with a
`package` attribute, extract `package`, optional
`android:versionCode` / `android:revisionCode`, optional `split`, and the
optional `android:minSdkVersion` of a `uses-sdk` child, short-circuiting
with a diagnostic on the first failure.  The external integer and SDK
parsers are passed as `parseIntF` and `parseSdkF`. -/
def ExtractAppInfoFromBinaryManifest (parseIntF : String → Option Nat)
    (parseSdkF : String → Option Int) (xml_res : XmlResource) :
    Option AppInfo × List Diag :=
  match xml_res.root.bind findRootElement with
  | none => (none, [])
  | some manifest_el =>
    if manifest_el.namespaceUri ≠ "" ∨ manifest_el.elName ≠ "manifest" then
      (none, [⟨.error, some xml_res.source, "root tag must be <manifest>"⟩])
    else
      match manifest_el.findAttribute "" "package" with
      | none =>
        (none, [⟨.error, some xml_res.source,
          "<manifest> must have a \x27package\x27 attribute"⟩])
      | some package_attr =>
        match ExtractCompiledString package_attr with
        | .error error_msg =>
          (none, [⟨.error, some (xml_res.source.withLine manifest_el.lineNumber),
            "invalid package name: " ++ error_msg⟩])
        | .ok package =>
          let version_step : Except Diag (Option Nat) :=
            match manifest_el.findAttribute kSchemaAndroid "versionCode" with
            | none => .ok none
            | some version_code_attr =>
              match ExtractCompiledInt parseIntF version_code_attr with
              | .error error_msg =>
                .error ⟨.error, some (xml_res.source.withLine manifest_el.lineNumber),
                  "invalid android:versionCode: " ++ error_msg⟩
              | .ok code => .ok (some code)
          match version_step with
          | .error d => (none, [d])
          | .ok version_code =>
            let revision_step : Except Diag (Option Nat) :=
              match manifest_el.findAttribute kSchemaAndroid "revisionCode" with
              | none => .ok none
              | some revision_code_attr =>
                match ExtractCompiledInt parseIntF revision_code_attr with
                | .error error_msg =>
                  .error ⟨.error, some (xml_res.source.withLine manifest_el.lineNumber),
                    "invalid android:revisionCode: " ++ error_msg⟩
                | .ok code => .ok (some code)
            match revision_step with
            | .error d => (none, [d])
            | .ok revision_code =>
              let split_step : Except Diag (Option String) :=
                match manifest_el.findAttribute "" "split" with
                | none => .ok none
                | some split_name_attr =>
                  match ExtractCompiledString split_name_attr with
                  | .error error_msg =>
                    .error ⟨.error, some (xml_res.source.withLine manifest_el.lineNumber),
                      "invalid split name: " ++ error_msg⟩
                  | .ok nm => .ok (some nm)
              match split_step with
              | .error d => (none, [d])
              | .ok split_name =>
                let sdk_step : Except Diag Int :=
                  match manifest_el.findChild "" "uses-sdk" with
                  | none => .ok 0
                  | some uses_sdk_el =>
                    match uses_sdk_el.findAttribute kSchemaAndroid "minSdkVersion" with
                    | none => .ok 0
                    | some min_sdk =>
                      match ExtractSdkVersion parseSdkF min_sdk with
                      | .error error_msg =>
                        .error ⟨.error,
                          some (xml_res.source.withLine uses_sdk_el.lineNumber),
                          "invalid android:minSdkVersion: " ++ error_msg⟩
                      | .ok v => .ok v
                match sdk_step with
                | .error d => (none, [d])
                | .ok min_sdk_version =>
                  (some { package := package, version_code := version_code,
                          revision_code := revision_code, split_name := split_name,
                          min_sdk_version := min_sdk_version }, [])

/-! ## Concrete instances of the external collaborators

The extraction and parsing functions above take the external parsers as
parameters; the instances below are used to evaluate the theorems on
concrete inputs. -/

/-- Decimal value of a digit list (auxiliary for the demo parsers). -/
def decDigits : List Char → Nat → Option Nat
  | [], acc => some acc
  | c :: cs, acc =>
    if c.isDigit then decDigits cs (acc * 10 + (c.toNat - 48)) else none

/-- Modelled from the spec: `ParseUnsignedInt(text) -> uint32` — a
concrete instance of the external integer parser (decimal digits,
`uint32` range). -/
def demoParseU32 (s : String) : Option Nat :=
  match s.data with
  | [] => none
  | cs => (decDigits cs 0).bind fun n => if n < 2 ^ 32 then some n else none

/-- Modelled from the spec: `ParseSdkVersion(text) -> int` ("accepts
numeric or known codename") — a concrete instance: decimal digits, or
the codename Q mapping to 29. -/
def demoParseSdk (s : String) : Option Int :=
  match s.data with
  | [] => none
  | cs =>
    match decDigits cs 0 with
    | some n => some (n : Int)
    | none => if s = "Q" then some 29 else none

/-- Modelled from the spec: `ParseConfig(text) -> ConfigDescriptor` — a
concrete instance of the external configuration parser over a handful of
qualifiers; the density entries auto-add an SDK version, as the real
parser does. -/
def demoParseConfig : String → Option ConfigDescription
  | "ldpi" => some { density := 120, sdkVersion := 4 }
  | "hdpi" => some { density := 240, sdkVersion := 4 }
  | "en" => some { locale := "en" }
  | "fr" => some { locale := "fr" }
  | "land" => some { screenSize := 1 }
  | "v18" => some { sdkVersion := 18 }
  | "v23" => some { sdkVersion := 23 }
  | _ => none

/-- A descriptor whose only non-default axis is SDK version 18. -/
def cV18 : ConfigDescription := { sdkVersion := 18 }

/-- A descriptor whose only non-default axis is SDK version 19. -/
def cV19 : ConfigDescription := { sdkVersion := 19 }

/-- A descriptor whose only non-default axis is SDK version 23. -/
def cV23 : ConfigDescription := { sdkVersion := 23 }

/-- A demo constraint set holding `cV18` and `cV19`. -/
def scDemo : SplitConstraints := ⟨{cV18, cV19}⟩

/-! ## Theorems about the SDK adjuster -/

/-- The per-descriptor rewrite of the SDK adjuster is idempotent: a
stripped descriptor has SDK version 0, which is again ≤ any minimum
that some descriptor's SDK version was ≤. -/
theorem adjustConfig_idem (m : Int) (c : ConfigDescription) :
    adjustConfig m (adjustConfig m c) = adjustConfig m c := by
  by_cases h : (c.sdkVersion : Int) ≤ m
  · have h0 : ((0 : Nat) : Int) ≤ m := le_trans (Int.ofNat_nonneg c.sdkVersion) h
    simp [adjustConfig, ConfigDescription.CopyWithoutSdkVersion, h, h0]
  · simp [adjustConfig, h]

/-- A descriptor's diff against another equals exactly the SDK-version
mask iff the two agree on every other axis and differ on SDK version. -/
theorem diff_eq_version_iff (a b : ConfigDescription) :
    a.diff b = CONFIG_VERSION ↔
      a.locale = b.locale ∧ a.density = b.density ∧ a.screenSize = b.screenSize ∧
        a.sdkVersion ≠ b.sdkVersion := by
  unfold ConfigDescription.diff CONFIG_LOCALE CONFIG_DENSITY CONFIG_SCREEN_SIZE CONFIG_VERSION
  by_cases h1 : a.locale = b.locale <;> by_cases h2 : a.density = b.density <;>
    by_cases h3 : a.screenSize = b.screenSize <;>
    by_cases h4 : a.sdkVersion = b.sdkVersion <;>
    simp [h1, h2, h3, h4]

/-- C3: `AdjustSplitConstraintsForMinSdk` returns a parallel sequence of
the same length and order; in the constraint set at each position a
descriptor is present iff it is the SDK-stripped copy of an input
descriptor with SDK version ≤ the minimum, or an unchanged input
descriptor with SDK version > the minimum.  In particular, for minimum 21
a descriptor with SDK version 18 loses its SDK qualifier and one with SDK
version 23 is kept unchanged.  (Mutation of the input cannot arise: the
embedding is a pure function of its arguments.) -/
theorem adjust_strips_le_min_sdk (min_sdk : Int) (scs : List SplitConstraints) :
    (AdjustSplitConstraintsForMinSdk min_sdk scs).length = scs.length ∧
    (∀ i (h1 : i < (AdjustSplitConstraintsForMinSdk min_sdk scs).length)
        (h2 : i < scs.length) (c : ConfigDescription),
      c ∈ ((AdjustSplitConstraintsForMinSdk min_sdk scs).get ⟨i, h1⟩).configs ↔
        ∃ c0 ∈ (scs.get ⟨i, h2⟩).configs,
          ((c0.sdkVersion : Int) ≤ min_sdk ∧ c = c0.CopyWithoutSdkVersion) ∨
            (min_sdk < (c0.sdkVersion : Int) ∧ c = c0)) ∧
    (∀ c : ConfigDescription,
      (c.sdkVersion = 18 →
        AdjustSplitConstraintsForMinSdk 21 [⟨{c}⟩] = [⟨{c.CopyWithoutSdkVersion}⟩]) ∧
      (c.sdkVersion = 23 → AdjustSplitConstraintsForMinSdk 21 [⟨{c}⟩] = [⟨{c}⟩])) := by
  refine ⟨by simp [AdjustSplitConstraintsForMinSdk], ?_, ?_⟩
  · intro i h1 h2 c
    simp only [AdjustSplitConstraintsForMinSdk, List.get_eq_getElem, List.getElem_map,
      Finset.mem_image]
    constructor
    · rintro ⟨c0, hc0, rfl⟩
      refine ⟨c0, hc0, ?_⟩
      by_cases h : (c0.sdkVersion : Int) ≤ min_sdk
      · exact Or.inl ⟨h, by simp [adjustConfig, h]⟩
      · exact Or.inr ⟨lt_of_not_le h, by simp [adjustConfig, h]⟩
    · rintro ⟨c0, hc0, ⟨h, he⟩ | ⟨h, he⟩⟩
      · exact ⟨c0, hc0, by simp [adjustConfig, h, he]⟩
      · exact ⟨c0, hc0, by simp [adjustConfig, not_le.mpr h, he]⟩
  · intro c
    constructor
    · intro h
      have hle : (c.sdkVersion : Int) ≤ 21 := by rw [h]; norm_num
      simp [AdjustSplitConstraintsForMinSdk, adjustConfig, hle]
    · intro h
      have hgt : ¬((c.sdkVersion : Int) ≤ 21) := by rw [h]; norm_num
      simp [AdjustSplitConstraintsForMinSdk, adjustConfig, hgt]

/-- Witness for C3: the adjuster evaluated at minimum 21 on singleton
constraint sets holding `cV18` and `cV23`, and on `scDemo`. -/
theorem adjust_strips_le_min_sdk_witness :
    cV18.sdkVersion = 18 ∧ cV23.sdkVersion = 23 ∧
    AdjustSplitConstraintsForMinSdk 21 [⟨{cV18}⟩] = [⟨{cV18.CopyWithoutSdkVersion}⟩] ∧
    AdjustSplitConstraintsForMinSdk 21 [⟨{cV23}⟩] = [⟨{cV23}⟩] ∧
    (AdjustSplitConstraintsForMinSdk 21 [scDemo]).length = [scDemo].length :=
  ⟨rfl, rfl,
   ((adjust_strips_le_min_sdk 21 [scDemo]).2.2 cV18).1 rfl,
   ((adjust_strips_le_min_sdk 21 [scDemo]).2.2 cV23).2 rfl,
   (adjust_strips_le_min_sdk 21 [scDemo]).1⟩

/-- C4: adjusting twice with the same minimum yields the same sequence
as adjusting once. -/
theorem adjust_idempotent (min_sdk : Int) (scs : List SplitConstraints) :
    AdjustSplitConstraintsForMinSdk min_sdk (AdjustSplitConstraintsForMinSdk min_sdk scs) =
      AdjustSplitConstraintsForMinSdk min_sdk scs := by
  unfold AdjustSplitConstraintsForMinSdk
  rw [List.map_map]
  apply List.map_congr_left
  intro constraints _
  simp only [Function.comp_apply, Finset.image_image]
  congr 1
  apply Finset.image_congr
  intro c _
  exact adjustConfig_idem min_sdk c

/-- C9: one adjusted constraint set never has more descriptors than its
input, and has strictly fewer as soon as two input descriptors differ
only in the SDK-version axis with both SDK versions ≤ the minimum (their
stripped copies coincide, so the set collapses them). -/
theorem adjust_card_le_and_collapse (min_sdk : Int) (sc : SplitConstraints) :
    ∀ t ∈ AdjustSplitConstraintsForMinSdk min_sdk [sc],
      t.configs.card ≤ sc.configs.card ∧
      (∀ c1 c2, c1 ∈ sc.configs → c2 ∈ sc.configs →
        c1.diff c2 = CONFIG_VERSION →
        (c1.sdkVersion : Int) ≤ min_sdk → (c2.sdkVersion : Int) ≤ min_sdk →
        t.configs.card < sc.configs.card) := by
  intro t ht
  simp only [AdjustSplitConstraintsForMinSdk, List.map_cons, List.map_nil,
    List.mem_singleton] at ht
  subst ht
  constructor
  · exact Finset.card_image_le
  · intro c1 c2 h1 h2 hdiff hle1 hle2
    obtain ⟨hl, hd, hs, hv⟩ := (diff_eq_version_iff c1 c2).mp hdiff
    have hne : c1 ≠ c2 := fun he => hv (by rw [he])
    have hsame : adjustConfig min_sdk c1 = adjustConfig min_sdk c2 := by
      simp only [adjustConfig, hle1, hle2, if_pos]
      unfold ConfigDescription.CopyWithoutSdkVersion
      cases c1; cases c2
      simp_all
    have hninj : ¬Set.InjOn (adjustConfig min_sdk) ↑sc.configs := by
      intro hinj
      exact hne (hinj h1 h2 hsame)
    refine lt_of_le_of_ne Finset.card_image_le fun hcard => ?_
    exact hninj (Finset.card_image_iff.mp hcard)

/-- Witness for C9: minimum 21 on `scDemo`, whose two descriptors differ
only in SDK version (18 vs 19), both ≤ 21; the adjusted set has one
descriptor where the input had two. -/
theorem adjust_card_le_and_collapse_witness :
    (⟨Finset.image (adjustConfig 21) scDemo.configs⟩ : SplitConstraints) ∈
        AdjustSplitConstraintsForMinSdk 21 [scDemo] ∧
    cV18.diff cV19 = CONFIG_VERSION ∧
    (Finset.image (adjustConfig 21) scDemo.configs).card < scDemo.configs.card := by
  refine ⟨by decide, by decide, ?_⟩
  exact (adjust_card_le_and_collapse 21 scDemo
      ⟨Finset.image (adjustConfig 21) scDemo.configs⟩ (by decide)).2
    cV18 cV19 (by decide) (by decide) (by decide) (by decide) (by decide)

/-! ## Theorems about the density parameter resolver -/

/-- C6: for every qualifier string, a parse failure yields the
invalid-density error; a parsed descriptor that — after the SDK-version
axis is unconditionally cleared — differs from the default descriptor in
anything but exactly the density axis yields the density-only error; and
a parsed descriptor that then differs in exactly the density axis yields
its density magnitude. -/
theorem parse_target_density_spec (parse : String → Option ConfigDescription)
    (arg : String) :
    (parse arg = none →
      ParseTargetDensityParameter parse arg =
        (none, [⟨.error, none,
          "invalid density \x27" ++ arg ++ "\x27 for --preferred-density option"⟩])) ∧
    (∀ c, parse arg = some c →
      ({ c with sdkVersion := 0 } : ConfigDescription).diff
          ConfigDescription.DefaultConfig ≠ CONFIG_DENSITY →
      ParseTargetDensityParameter parse arg =
        (none, [⟨.error, none,
          "invalid preferred density \x27" ++ arg ++ "\x27. " ++
          "Preferred density must only be a density value"⟩])) ∧
    (∀ c, parse arg = some c →
      ({ c with sdkVersion := 0 } : ConfigDescription).diff
          ConfigDescription.DefaultConfig = CONFIG_DENSITY →
      ParseTargetDensityParameter parse arg = (some c.density, [])) := by
  refine ⟨?_, ?_, ?_⟩
  · intro h
    simp [ParseTargetDensityParameter, h]
  · intro c hc hdiff
    simp [ParseTargetDensityParameter, hc, hdiff]
  · intro c hc hdiff
    simp [ParseTargetDensityParameter, hc, hdiff]

/-- Witness for C6: the demo parser on an unknown string, a locale-only
string, and a density string whose parse auto-adds an SDK version. -/
theorem parse_target_density_spec_witness :
    demoParseConfig "bogus" = none ∧
    ParseTargetDensityParameter demoParseConfig "bogus" =
      (none, [⟨.error, none,
        "invalid density \x27bogus\x27 for --preferred-density option"⟩]) ∧
    demoParseConfig "en" = some { locale := "en" } ∧
    ParseTargetDensityParameter demoParseConfig "en" =
      (none, [⟨.error, none,
        "invalid preferred density \x27en\x27. " ++
        "Preferred density must only be a density value"⟩]) ∧
    demoParseConfig "hdpi" = some { density := 240, sdkVersion := 4 } ∧
    ParseTargetDensityParameter demoParseConfig "hdpi" = (some 240, []) :=
  ⟨rfl,
   (parse_target_density_spec demoParseConfig "bogus").1 rfl,
   rfl,
   (parse_target_density_spec demoParseConfig "en").2.1 { locale := "en" } rfl (by decide),
   rfl,
   (parse_target_density_spec demoParseConfig "hdpi").2.2
     { density := 240, sdkVersion := 4 } rfl (by decide)⟩

/-! ## Theorems about the split parameter parser -/

/-- The configuration descriptors the token loop accumulates:
left-to-right insertion of each token's parse into the set. -/
def insertParsed (parse : String → Option ConfigDescription)
    (configs : Finset ConfigDescription) (tokens : List String) :
    Finset ConfigDescription :=
  tokens.foldl
    (fun s t =>
      match parse t with
      | some c => insert c s
      | none => s)
    configs

/-- When every token parses, the token loop succeeds with no diagnostics
and accumulates every parsed descriptor. -/
theorem parseSplitLoop_all_ok (parse : String → Option ConfigDescription)
    (arg : String) (tokens : List String) (st : Finset ConfigDescription)
    (h : ∀ t ∈ tokens, (parse t).isSome) :
    parseSplitLoop parse arg tokens st = (true, insertParsed parse st tokens, []) := by
  induction tokens generalizing st with
  | nil => simp [parseSplitLoop, insertParsed]
  | cons t rest ih =>
    have ht := h t (by simp)
    match hp : parse t with
    | none => rw [hp] at ht; simp at ht
    | some c =>
      simp only [parseSplitLoop, hp]
      rw [ih (insert c st) fun x hx => h x (by simp [hx])]
      simp [insertParsed, hp]

/-- When the tokens before `t` parse and `t` does not, the token loop
fails with the invalid-config diagnostic for `t`, keeping the
descriptors accumulated so far. -/
theorem parseSplitLoop_first_fail (parse : String → Option ConfigDescription)
    (arg : String) (pre : List String) (t : String) (rest : List String)
    (st : Finset ConfigDescription)
    (hpre : ∀ x ∈ pre, (parse x).isSome) (ht : parse t = none) :
    parseSplitLoop parse arg (pre ++ t :: rest) st =
      (false, insertParsed parse st pre,
       [⟨.error, none,
         "invalid config \x27" ++ t ++ "\x27 in split parameter \x27" ++ arg ++ "\x27"⟩]) := by
  induction pre generalizing st with
  | nil => simp [parseSplitLoop, ht, insertParsed]
  | cons x xs ih =>
    have hx := hpre x (by simp)
    match hp : parse x with
    | none => rw [hp] at hx; simp at hx
    | some c =>
      rw [List.cons_append]
      simp only [parseSplitLoop, hp]
      rw [ih (insert c st) fun y hy => hpre y (by simp [hy])]
      simp [insertParsed, hp]

/-- C7: `ParseSplitParameter` fails with the error plus corrective note
whenever splitting the argument on the separator does not give exactly
two parts (e.g. for input `bad`), leaving the out-parameters untouched;
with two parts and all comma-separated tokens parsing it succeeds with
the first part as path and the parsed descriptors inserted into the set
(so `out.apk:en,fr` yields path `out.apk` and exactly the descriptors of
`en` and `fr`, and duplicate tokens collapse); and when a token fails to
parse it returns failure with a diagnostic naming the token and the
whole argument. -/
theorem parse_split_parameter_spec (parse : String → Option ConfigDescription) :
    (∀ arg out_path out_split, (splitChar sSeparator arg).length ≠ 2 →
      ParseSplitParameter parse arg out_path out_split =
        (false, out_path, out_split,
         [⟨.error, none, "invalid split parameter \x27" ++ arg ++ "\x27"⟩,
          ⟨.note, none,
           "should be --split path/to/output.apk" ++ String.singleton sSeparator ++
           "<config>[,<config>...]."⟩])) ∧
    (∀ out_path out_split,
      ParseSplitParameter parse "bad" out_path out_split =
        (false, out_path, out_split,
         [⟨.error, none, "invalid split parameter \x27bad\x27"⟩,
          ⟨.note, none,
           "should be --split path/to/output.apk" ++ String.singleton sSeparator ++
           "<config>[,<config>...]."⟩])) ∧
    (∀ arg p0 p1 out_path out_split, splitChar sSeparator arg = [p0, p1] →
      (∀ tk ∈ splitChar ',' p1, (parse tk).isSome) →
      ParseSplitParameter parse arg out_path out_split =
        (true, p0, insertParsed parse out_split (splitChar ',' p1), [])) ∧
    (∀ c1 c2, parse "en" = some c1 → parse "fr" = some c2 →
      ParseSplitParameter parse "out.apk:en,fr" "" ∅ =
        (true, "out.apk", {c1, c2}, [])) ∧
    (∀ c, parse "en" = some c →
      ParseSplitParameter parse "o:en,en" "" ∅ = (true, "o", {c}, [])) ∧
    (∀ arg p0 p1 pre tk rest out_path out_split,
      splitChar sSeparator arg = [p0, p1] →
      splitChar ',' p1 = pre ++ tk :: rest →
      (∀ x ∈ pre, (parse x).isSome) → parse tk = none →
      (ParseSplitParameter parse arg out_path out_split).1 = false ∧
      (ParseSplitParameter parse arg out_path out_split).2.2.2 =
        [⟨.error, none,
          "invalid config \x27" ++ tk ++ "\x27 in split parameter \x27" ++ arg ++
          "\x27"⟩]) := by
  have comp1 : ∀ arg out_path out_split, (splitChar sSeparator arg).length ≠ 2 →
      ParseSplitParameter parse arg out_path out_split =
        (false, out_path, out_split,
         [⟨.error, none, "invalid split parameter \x27" ++ arg ++ "\x27"⟩,
          ⟨.note, none,
           "should be --split path/to/output.apk" ++ String.singleton sSeparator ++
           "<config>[,<config>...]."⟩]) := by
    intro arg out_path out_split h
    simp [ParseSplitParameter, h]
  have comp3 : ∀ arg p0 p1 out_path out_split, splitChar sSeparator arg = [p0, p1] →
      (∀ tk ∈ splitChar ',' p1, (parse tk).isSome) →
      ParseSplitParameter parse arg out_path out_split =
        (true, p0, insertParsed parse out_split (splitChar ',' p1), []) := by
    intro arg p0 p1 out_path out_split hsplit htok
    have hloop := parseSplitLoop_all_ok parse arg (splitChar ',' p1) out_split htok
    simp [ParseSplitParameter, hsplit, hloop]
  refine ⟨comp1, fun out_path out_split => comp1 "bad" out_path out_split (by decide),
    comp3, ?_, ?_, ?_⟩
  · intro c1 c2 h1 h2
    have hsplit : splitChar sSeparator "out.apk:en,fr" = ["out.apk", "en,fr"] := by decide
    have htokens : splitChar ',' "en,fr" = ["en", "fr"] := by decide
    rw [comp3 "out.apk:en,fr" "out.apk" "en,fr" "" ∅ hsplit
      (by rw [htokens]; intro tk htk; fin_cases htk <;> simp [h1, h2])]
    rw [htokens]
    simp [insertParsed, h1, h2, Finset.pair_comm]
  · intro c h1
    have hsplit : splitChar sSeparator "o:en,en" = ["o", "en,en"] := by decide
    have htokens : splitChar ',' "en,en" = ["en", "en"] := by decide
    rw [comp3 "o:en,en" "o" "en,en" "" ∅ hsplit
      (by rw [htokens]; intro tk htk; fin_cases htk <;> simp [h1])]
    rw [htokens]
    simp [insertParsed, h1]
  · intro arg p0 p1 pre tk rest out_path out_split hsplit htok hpre ht
    have hloop := parseSplitLoop_first_fail parse arg pre tk rest out_split hpre ht
    rw [← htok] at hloop
    simp [ParseSplitParameter, hsplit, hloop]

/-- The descriptor the demo parser returns for `en`. -/
def cEn : ConfigDescription := { locale := "en" }

/-- The descriptor the demo parser returns for `fr`. -/
def cFr : ConfigDescription := { locale := "fr" }

/-- Witness for C7: the demo parser on `bad` (one part), on
`out.apk:en,fr` (success), on `o:en,en` (duplicate collapse) and on
`o:en,zz` (invalid token `zz`). -/
theorem parse_split_parameter_spec_witness :
    ParseSplitParameter demoParseConfig "bad" "p" ∅ =
      (false, "p", ∅,
       [⟨.error, none, "invalid split parameter \x27bad\x27"⟩,
        ⟨.note, none,
         "should be --split path/to/output.apk" ++ String.singleton sSeparator ++
         "<config>[,<config>...]."⟩]) ∧
    demoParseConfig "en" = some cEn ∧
    demoParseConfig "fr" = some cFr ∧
    ParseSplitParameter demoParseConfig "out.apk:en,fr" "" ∅ =
      (true, "out.apk", {cEn, cFr}, []) ∧
    ParseSplitParameter demoParseConfig "o:en,en" "" ∅ = (true, "o", {cEn}, []) ∧
    (ParseSplitParameter demoParseConfig "o:en,zz" "" ∅).1 = false ∧
    (ParseSplitParameter demoParseConfig "o:en,zz" "" ∅).2.2.2 =
      [⟨.error, none, "invalid config \x27zz\x27 in split parameter \x27o:en,zz\x27"⟩] := by
  have h6 := (parse_split_parameter_spec demoParseConfig).2.2.2.2.2 "o:en,zz" "o"
    "en,zz" ["en"] "zz" [] "" ∅ (by decide) (by decide) (by decide) rfl
  exact ⟨(parse_split_parameter_spec demoParseConfig).2.1 "p" ∅, rfl, rfl,
    (parse_split_parameter_spec demoParseConfig).2.2.2.1 cEn cFr rfl rfl,
    (parse_split_parameter_spec demoParseConfig).2.2.2.2.1 cEn rfl,
    h6.1, h6.2⟩

/-- C10: when some comma-separated token fails to parse,
`ParseSplitParameter` returns failure but its out-parameters have
already been written: the path out-parameter holds the path part, and
the constraint set holds exactly the descriptors of the tokens preceding
the offending one (inserted into whatever it held before the call). -/
theorem parse_split_parameter_nonatomic
    (parse : String → Option ConfigDescription)
    (arg p0 p1 : String) (pre : List String) (tk : String) (rest : List String)
    (out_path : String) (out_split : Finset ConfigDescription)
    (hsplit : splitChar sSeparator arg = [p0, p1])
    (htok : splitChar ',' p1 = pre ++ tk :: rest)
    (hpre : ∀ x ∈ pre, (parse x).isSome) (ht : parse tk = none) :
    ParseSplitParameter parse arg out_path out_split =
      (false, p0, insertParsed parse out_split pre,
       [⟨.error, none,
         "invalid config \x27" ++ tk ++ "\x27 in split parameter \x27" ++ arg ++
         "\x27"⟩]) := by
  have hloop := parseSplitLoop_first_fail parse arg pre tk rest out_split hpre ht
  rw [← htok] at hloop
  simp [ParseSplitParameter, hsplit, hloop]

/-- Witness for C10: `o2:en,zz,fr` with the demo parser — `zz` fails,
and the out-parameters already hold path `o2` and the descriptor of
`en`. -/
theorem parse_split_parameter_nonatomic_witness :
    splitChar sSeparator "o2:en,zz,fr" = ["o2", "en,zz,fr"] ∧
    splitChar ',' "en,zz,fr" = ["en"] ++ "zz" :: ["fr"] ∧
    demoParseConfig "zz" = none ∧
    ParseSplitParameter demoParseConfig "o2:en,zz,fr" "" ∅ =
      (false, "o2", {cEn},
       [⟨.error, none,
         "invalid config \x27zz\x27 in split parameter \x27o2:en,zz,fr\x27"⟩]) := by
  refine ⟨by decide, by decide, rfl, ?_⟩
  have h := parse_split_parameter_nonatomic demoParseConfig "o2:en,zz,fr" "o2"
    "en,zz,fr" ["en"] "zz" ["fr"] "" ∅ (by decide) (by decide) (by decide) rfl
  rw [h]
  decide

/-! ## Theorems about the split manifest synthesizer -/

/-- C5: the generated manifest's `split` attribute is `config.` plus the
constraint set's descriptors joined by `_` in sorted order when no split
name is given, with no `configForSplit` attribute; with a split name it
is the name, a dot, and that same string, and a `configForSplit`
attribute carrying the name is present. -/
theorem generate_split_manifest_split_attr (app_info : AppInfo)
    (constraints : SplitConstraints) :
    (app_info.split_name = none →
      ((GenerateSplitManifest app_info constraints).root.bind findRootElement).bind
          (fun el => (el.findAttribute "" "split").map XmlAttribute.value) =
        some ("config." ++ joinedConfigs constraints.configs "_") ∧
      ((GenerateSplitManifest app_info constraints).root.bind findRootElement).bind
          (fun el => el.findAttribute "" "configForSplit") = none) ∧
    (∀ nm, app_info.split_name = some nm →
      ((GenerateSplitManifest app_info constraints).root.bind findRootElement).bind
          (fun el => (el.findAttribute "" "split").map XmlAttribute.value) =
        some (nm ++ "." ++ "config." ++ joinedConfigs constraints.configs "_") ∧
      ((GenerateSplitManifest app_info constraints).root.bind findRootElement).bind
          (fun el => (el.findAttribute "" "configForSplit").map XmlAttribute.value) =
        some nm) := by
  constructor
  · intro h
    rcases hv : app_info.version_code with _ | vc <;>
      rcases hr : app_info.revision_code with _ | rc <;>
      simp [GenerateSplitManifest, findRootElement, XmlNode.findAttribute,
        XmlNode.attributes, h, hv, hr, List.find?, kSchemaAndroid]
  · intro nm h
    rcases hv : app_info.version_code with _ | vc <;>
      rcases hr : app_info.revision_code with _ | rc <;>
      simp [GenerateSplitManifest, findRootElement, XmlNode.findAttribute,
        XmlNode.attributes, h, hv, hr, List.find?, kSchemaAndroid]

/-- An app identity with no split name (for witnesses). -/
def appPlain : AppInfo := { package := "com.example" }

/-- An app identity with a split name and a version code (for
witnesses). -/
def appFeature : AppInfo :=
  { package := "com.example", version_code := some 7, split_name := some "feature" }

/-- Witness for C5: the generated manifests for `appPlain` and
`appFeature` over `scDemo`. -/
theorem generate_split_manifest_split_attr_witness :
    appPlain.split_name = none ∧
    ((GenerateSplitManifest appPlain scDemo).root.bind findRootElement).bind
        (fun el => (el.findAttribute "" "split").map XmlAttribute.value) =
      some ("config." ++ joinedConfigs scDemo.configs "_") ∧
    appFeature.split_name = some "feature" ∧
    ((GenerateSplitManifest appFeature scDemo).root.bind findRootElement).bind
        (fun el => (el.findAttribute "" "split").map XmlAttribute.value) =
      some ("feature." ++ "config." ++ joinedConfigs scDemo.configs "_") ∧
    ((GenerateSplitManifest appFeature scDemo).root.bind findRootElement).bind
        (fun el => (el.findAttribute "" "configForSplit").map XmlAttribute.value) =
      some "feature" :=
  ⟨rfl, ((generate_split_manifest_split_attr appPlain scDemo).1 rfl).1, rfl,
   ((generate_split_manifest_split_attr appFeature scDemo).2 "feature" rfl).1,
   ((generate_split_manifest_split_attr appFeature scDemo).2 "feature" rfl).2⟩

/-! ## Theorems about the attribute value extractors -/

/-- C1: all three extractors use a present compiled value and never
consult the text in that case (changing the text changes nothing); a
present compiled value of the wrong kind fails with the type-mismatch
error of the respective extractor, an empty compiled string fails the
string extractor with the empty-value error, a compiled string that is
no SDK version fails the SDK extractor; and only with no compiled value
do they fall back to the raw text, failing with the empty-value /
not-an-integer / not-an-SDK-version errors when the text is empty or
does not parse. -/
theorem extractors_compiled_first (parseIntF : String → Option Nat)
    (parseSdkF : String → Option Int) (a : XmlAttribute) :
    (∀ cv, a.compiled_value = some cv →
      (∀ t, ExtractCompiledString { a with value := t } = ExtractCompiledString a) ∧
      (∀ t, ExtractCompiledInt parseIntF { a with value := t } =
        ExtractCompiledInt parseIntF a) ∧
      (∀ t, ExtractSdkVersion parseSdkF { a with value := t } =
        ExtractSdkVersion parseSdkF a)) ∧
    (∀ cv, a.compiled_value = some cv →
      (∀ s, cv = .str s → s ≠ "" → ExtractCompiledString a = .ok s) ∧
      (cv = .str "" →
        ExtractCompiledString a = .error "compiled value is an empty string") ∧
      (∀ dt d, cv = .prim dt d →
        ExtractCompiledString a = .error "compiled value is not a string") ∧
      (cv = .other →
        ExtractCompiledString a = .error "compiled value is not a string") ∧
      (∀ dt d, cv = .prim dt d → TYPE_FIRST_INT ≤ dt → dt ≤ TYPE_LAST_INT →
        ExtractCompiledInt parseIntF a = .ok d ∧
        ExtractSdkVersion parseSdkF a = .ok (intOfUint32 d)) ∧
      (∀ dt d, cv = .prim dt d → ¬(TYPE_FIRST_INT ≤ dt ∧ dt ≤ TYPE_LAST_INT) →
        ExtractCompiledInt parseIntF a = .error "compiled value is not an integer" ∧
        ExtractSdkVersion parseSdkF a =
          .error "compiled value is not an integer or string") ∧
      (∀ s, cv = .str s →
        ExtractCompiledInt parseIntF a = .error "compiled value is not an integer") ∧
      (cv = .other →
        ExtractCompiledInt parseIntF a = .error "compiled value is not an integer" ∧
        ExtractSdkVersion parseSdkF a =
          .error "compiled value is not an integer or string") ∧
      (∀ s, cv = .str s →
        (∀ v, parseSdkF s = some v → ExtractSdkVersion parseSdkF a = .ok v) ∧
        (parseSdkF s = none →
          ExtractSdkVersion parseSdkF a =
            .error "compiled string value is not a valid SDK version"))) ∧
    (a.compiled_value = none →
      (a.value = "" →
        ExtractCompiledString a = .error "value is an empty string") ∧
      (a.value ≠ "" → ExtractCompiledString a = .ok a.value) ∧
      (∀ n, parseIntF a.value = some n → ExtractCompiledInt parseIntF a = .ok n) ∧
      (parseIntF a.value = none →
        ExtractCompiledInt parseIntF a =
          .error ("\x27" ++ a.value ++ "\x27 is not a valid integer")) ∧
      (∀ v, parseSdkF a.value = some v → ExtractSdkVersion parseSdkF a = .ok v) ∧
      (parseSdkF a.value = none →
        ExtractSdkVersion parseSdkF a =
          .error ("\x27" ++ a.value ++ "\x27 is not a valid SDK version"))) := by
  refine ⟨?_, ?_, ?_⟩
  · intro cv hcv
    refine ⟨fun t => ?_, fun t => ?_, fun t => ?_⟩ <;>
      simp [ExtractCompiledString, ExtractCompiledInt, ExtractSdkVersion, hcv]
  · intro cv hcv
    refine ⟨?_, ?_, ?_, ?_, ?_, ?_, ?_, ?_, ?_⟩
    · intro s hs hne
      subst hs
      simp [ExtractCompiledString, hcv, hne]
    · intro hs
      subst hs
      simp [ExtractCompiledString, hcv]
    · intro dt d hp
      subst hp
      simp [ExtractCompiledString, hcv]
    · intro ho
      subst ho
      simp [ExtractCompiledString, hcv]
    · intro dt d hp hge hle
      subst hp
      constructor <;> simp [ExtractCompiledInt, ExtractSdkVersion, hcv, hge, hle]
    · intro dt d hp hn
      subst hp
      constructor <;> simp [ExtractCompiledInt, ExtractSdkVersion, hcv, hn]
    · intro s hs
      subst hs
      simp [ExtractCompiledInt, hcv]
    · intro ho
      subst ho
      constructor <;> simp [ExtractCompiledInt, ExtractSdkVersion, hcv]
    · intro s hs
      subst hs
      constructor
      · intro v hv
        simp [ExtractSdkVersion, hcv, hv]
      · intro hv
        simp [ExtractSdkVersion, hcv, hv]
  · intro h
    refine ⟨?_, ?_, ?_, ?_, ?_, ?_⟩
    · intro hv
      simp [ExtractCompiledString, h, hv]
    · intro hv
      simp [ExtractCompiledString, h, hv]
    · intro n hn
      simp [ExtractCompiledInt, h, hn]
    · intro hn
      simp [ExtractCompiledInt, h, hn]
    · intro v hv
      simp [ExtractSdkVersion, h, hv]
    · intro hv
      simp [ExtractSdkVersion, h, hv]

/-- Attribute with a compiled string and conflicting text (witnesses). -/
def aStrC : XmlAttribute :=
  { value := "text-ignored", compiled_value := some (.str "com.x") }

/-- Attribute with an empty compiled string (witnesses). -/
def aStrEmpty : XmlAttribute :=
  { value := "text", compiled_value := some (.str "") }

/-- Attribute with a compiled decimal integer 7 (witnesses). -/
def aPrim : XmlAttribute :=
  { value := "text", compiled_value := some (.prim TYPE_INT_DEC 7) }

/-- Attribute with a compiled primitive outside the integer range
(witnesses). -/
def aPrimBad : XmlAttribute :=
  { value := "text", compiled_value := some (.prim 3 7) }

/-- Attribute with only the text `26` (witnesses). -/
def aText : XmlAttribute := { value := "26" }

/-- Attribute with empty text and no compiled value (witnesses). -/
def aEmpty : XmlAttribute := {}

/-- Attribute with non-numeric text and no compiled value (witnesses). -/
def aBadText : XmlAttribute := { value := "xy" }

/-- Witness for C1: the three extractors evaluated on concrete
attributes covering compiled-string, empty-compiled-string,
compiled-integer, wrong-kind, text-fallback and empty/invalid-text
cases, with the demo parsers. -/
theorem extractors_compiled_first_witness :
    ExtractCompiledString { aStrC with value := "changed" } =
      ExtractCompiledString aStrC ∧
    ExtractCompiledString aStrC = .ok "com.x" ∧
    ExtractCompiledString aStrEmpty = .error "compiled value is an empty string" ∧
    ExtractCompiledString aPrim = .error "compiled value is not a string" ∧
    ExtractCompiledInt demoParseU32 aPrim = .ok 7 ∧
    ExtractSdkVersion demoParseSdk aPrim = .ok (intOfUint32 7) ∧
    ExtractCompiledInt demoParseU32 aPrimBad =
      .error "compiled value is not an integer" ∧
    ExtractSdkVersion demoParseSdk aPrimBad =
      .error "compiled value is not an integer or string" ∧
    ExtractCompiledInt demoParseU32 aStrC =
      .error "compiled value is not an integer" ∧
    ExtractSdkVersion demoParseSdk aStrC =
      .error "compiled string value is not a valid SDK version" ∧
    ExtractCompiledString aEmpty = .error "value is an empty string" ∧
    ExtractCompiledString aText = .ok "26" ∧
    ExtractCompiledInt demoParseU32 aText = .ok 26 ∧
    ExtractSdkVersion demoParseSdk aText = .ok 26 ∧
    ExtractCompiledInt demoParseU32 aBadText =
      .error "\x27xy\x27 is not a valid integer" ∧
    ExtractSdkVersion demoParseSdk aBadText =
      .error "\x27xy\x27 is not a valid SDK version" := by
  have hS := extractors_compiled_first demoParseU32 demoParseSdk aStrC
  have hSE := extractors_compiled_first demoParseU32 demoParseSdk aStrEmpty
  have hP := extractors_compiled_first demoParseU32 demoParseSdk aPrim
  have hPB := extractors_compiled_first demoParseU32 demoParseSdk aPrimBad
  have hE := extractors_compiled_first demoParseU32 demoParseSdk aEmpty
  have hT := extractors_compiled_first demoParseU32 demoParseSdk aText
  have hB := extractors_compiled_first demoParseU32 demoParseSdk aBadText
  have h5 := (hP.2.1 (.prim TYPE_INT_DEC 7) rfl).2.2.2.2.1 TYPE_INT_DEC 7 rfl
    (by decide) (by decide)
  have h6 := (hPB.2.1 (.prim 3 7) rfl).2.2.2.2.2.1 3 7 rfl (by decide)
  exact ⟨(hS.1 (.str "com.x") rfl).1 "changed",
    (hS.2.1 (.str "com.x") rfl).1 "com.x" rfl (by decide),
    (hSE.2.1 (.str "") rfl).2.1 rfl,
    (hP.2.1 (.prim TYPE_INT_DEC 7) rfl).2.2.1 TYPE_INT_DEC 7 rfl,
    h5.1, h5.2, h6.1, h6.2,
    (hS.2.1 (.str "com.x") rfl).2.2.2.2.2.2.1 "com.x" rfl,
    ((hS.2.1 (.str "com.x") rfl).2.2.2.2.2.2.2.2 "com.x" rfl).2 (by decide),
    (hE.2.2 rfl).1 rfl,
    (hT.2.2 rfl).2.1 (by decide),
    (hT.2.2 rfl).2.2.1 26 (by decide),
    (hT.2.2 rfl).2.2.2.2.1 26 (by decide),
    (hB.2.2 rfl).2.2.2.1 (by decide),
    (hB.2.2 rfl).2.2.2.2.2 (by decide)⟩

/-! ## Theorems about the app info extractor -/

/-- The minimal manifest root element: `manifest` in the empty namespace
with the single textual attribute `package="com.example"` and no
children. -/
def minimalManifestEl (ln : Nat) : XmlNode :=
  .el "" "manifest" ln
    [{ namespace_uri := "", name := "package", value := "com.example" }] []

/-- C2: on every document whose root element is the minimal manifest —
`manifest` in the empty namespace whose only attribute is
`package="com.example"`, with no children — extraction succeeds with
package `com.example`, no version code, no revision code, no split name,
and the default minimum SDK 0, and emits no diagnostic. -/
theorem extract_app_info_minimal_manifest (parseIntF : String → Option Nat)
    (parseSdkF : String → Option Int) (xml_res : XmlResource) (ln : Nat)
    (hroot : xml_res.root.bind findRootElement = some (minimalManifestEl ln)) :
    ExtractAppInfoFromBinaryManifest parseIntF parseSdkF xml_res =
      (some { package := "com.example", version_code := none,
              revision_code := none, split_name := none, min_sdk_version := 0 },
       []) := by
  simp [ExtractAppInfoFromBinaryManifest, hroot, minimalManifestEl,
    XmlNode.namespaceUri, XmlNode.elName, XmlNode.findAttribute, XmlNode.attributes,
    XmlNode.findChild, XmlNode.childNodes, ExtractCompiledString, List.find?,
    kSchemaAndroid]

/-- The minimal manifest document, with the root element wrapped in a
namespace node as the compiler produces it. -/
def minimalDoc : XmlResource :=
  { source := { path := "AndroidManifest.xml" },
    root := some (.nsNode "android" kSchemaAndroid [minimalManifestEl 3]) }

/-- Witness for C2: the minimal document evaluated with the demo
parsers. -/
theorem extract_app_info_minimal_manifest_witness :
    minimalDoc.root.bind findRootElement = some (minimalManifestEl 3) ∧
    ExtractAppInfoFromBinaryManifest demoParseU32 demoParseSdk minimalDoc =
      (some { package := "com.example", version_code := none,
              revision_code := none, split_name := none, min_sdk_version := 0 },
       []) :=
  ⟨rfl, extract_app_info_minimal_manifest demoParseU32 demoParseSdk minimalDoc 3 rfl⟩

/-- A document whose root `manifest` element (line 5) has no attributes
at all, in particular no `package`. -/
def noPkgDoc : XmlResource :=
  { source := { path := "AndroidManifest.xml" },
    root := some (.el "" "manifest" 5 [] []) }

/-- Counterexample to C8 as stated: on a root `manifest` element at line
5 without a `package` attribute, the missing-package diagnostic is
anchored at the document-level source with no line number — not at the
root element's line number, although a root element exists and carries
line 5. -/
theorem extract_app_info_missing_package_counterexample :
    (ExtractAppInfoFromBinaryManifest demoParseU32 demoParseSdk noPkgDoc).2 =
      [⟨.error, some { path := "AndroidManifest.xml", line := none },
        "<manifest> must have a \x27package\x27 attribute"⟩] ∧
    (noPkgDoc.root.bind findRootElement).map XmlNode.lineNumber = some 5 ∧
    some ({ path := "AndroidManifest.xml", line := none } : Source) ≠
      some (noPkgDoc.source.withLine 5) :=
  ⟨rfl, rfl, by decide⟩

/-- C8 (amended): when the root element is `manifest` in the empty
namespace but carries no `package` attribute, extraction fails with the
missing-package structural error, and the diagnostic is anchored at the
document-level source as-is — no element line number is attached, even
though the root element exists. -/
theorem extract_app_info_missing_package (parseIntF : String → Option Nat)
    (parseSdkF : String → Option Int) (xml_res : XmlResource) (ln : Nat)
    (attrs : List XmlAttribute) (children : List XmlNode)
    (hroot : xml_res.root.bind findRootElement =
      some (.el "" "manifest" ln attrs children))
    (hnopkg : (XmlNode.el "" "manifest" ln attrs children).findAttribute ""
      "package" = none) :
    ExtractAppInfoFromBinaryManifest parseIntF parseSdkF xml_res =
      (none, [⟨.error, some xml_res.source,
        "<manifest> must have a \x27package\x27 attribute"⟩]) := by
  simp [ExtractAppInfoFromBinaryManifest, hroot, hnopkg, XmlNode.namespaceUri,
    XmlNode.elName]

/-- Witness for the amended C8: `noPkgDoc` with the demo parsers; the
diagnostic carries the document source, whose line is `none`. -/
theorem extract_app_info_missing_package_witness :
    noPkgDoc.root.bind findRootElement = some (.el "" "manifest" 5 [] []) ∧
    (XmlNode.el "" "manifest" 5 [] []).findAttribute "" "package" = none ∧
    ExtractAppInfoFromBinaryManifest demoParseU32 demoParseSdk noPkgDoc =
      (none, [⟨.error, some noPkgDoc.source,
        "<manifest> must have a \x27package\x27 attribute"⟩]) :=
  ⟨rfl, rfl,
   extract_app_info_missing_package demoParseU32 demoParseSdk noPkgDoc 5 [] []
     rfl rfl⟩

end Aapt
